import Mathlib

/-!
Verification of the napkin-mcp-bridge server (`src/index.js`).

The development shallowly embeds the core of the server:
the MCP JSON-RPC dispatcher (`handleMcpRequest`), the HTTP POST entry
point (`app.post('/mcp')`), the image/bundle store (`imageStore`) with
its expiry sweeper, the bundling tool (`bundleImages`), the Napkin job
poller (`generateNapkinVisual`), and the two download routes.

External effects (the Napkin HTTP API, the file fetch, `randomUUID`,
`Date.now`) are modelled as explicit parameters/oracles; JavaScript
truthiness on optional strings is modelled by `jsTruthy`.
-/

namespace NapkinBridge

/-! ## JSON-RPC data model -/

/-- A JSON-RPC request id as the dispatcher sees it: the `id` property of
the parsed request object may be absent (`undefined`), `null`, a number,
or a string.  The dispatcher copies it verbatim into responses. -/
inductive RpcId where
  | absent
  | null
  | num (n : Int)
  | str (s : String)
deriving DecidableEq, Repr

/-- A tool catalog entry (`TOOLS` in `src/index.js`).  The static
`inputSchema` objects are data never consulted by the dispatcher and are
not represented. -/
structure Tool where
  name : String
  description : String
deriving DecidableEq, Repr

/-- The static tool catalog `TOOLS`. -/
def TOOLS : List Tool :=
  [ { name := "generate_visual"
    , description := "Generate infographics and visuals using Napkin AI. Creates mindmaps, flowcharts, timelines, comparisons, and more from text content. Returns the image displayed inline plus a download ID for bundling." }
  , { name := "bundle_images"
    , description := "Bundle multiple generated images into a downloadable ZIP file. Use after generating visuals with generate_visual." } ]

/-- A content block of a tool result: `{type:"text", text}` or
`{type:"image", data, mimeType}` (`data` is the base64 payload). -/
inductive ContentBlock where
  | text (t : String)
  | image (data : String) (mimeType : String)
deriving DecidableEq, Repr

/-- The `result` payload of a successful JSON-RPC response.  `isErr`
models the presence of `isError: true` on a tool result (absent = `false`). -/
inductive RpcResult where
  | initResult (protocolVersion serverName serverVersion : String)
  | toolsList (tools : List Tool)
  | toolContent (content : List ContentBlock) (isErr : Bool)
  | emptyObj
deriving DecidableEq, Repr

/-- Body of a JSON-RPC response: either a `result` or an `error` object. -/
inductive RpcBody where
  | result (r : RpcResult)
  | error (code : Int) (message : String)
deriving DecidableEq, Repr

/-- A JSON-RPC response object as built by `jsonRpcResponse` /
`jsonRpcError`. -/
structure RpcResponse where
  id : RpcId
  body : RpcBody
deriving DecidableEq, Repr

/-- `jsonRpcResponse(id, result)` from `src/index.js`. -/
def jsonRpcResponse (id : RpcId) (result : RpcResult) : RpcResponse :=
  { id := id, body := .result result }

/-- `jsonRpcError(id, code, message)` from `src/index.js`. -/
def jsonRpcError (id : RpcId) (code : Int) (message : String) : RpcResponse :=
  { id := id, body := .error code message }

/-- The `params` property of a request.  In JavaScript, destructuring
`const { name, arguments: args } = params` throws when `params` is
`undefined`/`null` (modelled at the call site), yields the properties when
`params` is an object, and yields `undefined` fields when `params` is a
non-null primitive (`nonObj`).  The `arguments` property is forwarded
verbatim to the tool handler, which the embedding parametrises by its
outcome, so it is not represented here. -/
inductive ParamsVal where
  | obj (name : Option String)
  | nonObj
deriving DecidableEq, Repr

/-- The `name` property read off `params` (`undefined` when `params` is a
primitive or the property is missing). -/
def ParamsVal.nameOf : ParamsVal → Option String
  | .obj n => n
  | .nonObj => none

/-- A parsed JSON-RPC request object.  `method := none` models an absent
`method` property; `params := none` models absent-or-`null` `params`
(both behave identically at the destructuring). -/
structure Request where
  method : Option String
  id : RpcId
  params : Option ParamsVal
deriving DecidableEq, Repr

/-- String interpolation of a possibly-`undefined` value:
`` `${x}` `` renders `undefined` when the value is absent. -/
def optStr : Option String → String
  | none => "undefined"
  | some s => s

/-- Whether the first list is a prefix of the second (character-wise). -/
def charsPrefix : List Char → List Char → Bool
  | [], _ => true
  | _ :: _, [] => false
  | x :: xs, y :: ys => x = y && charsPrefix xs ys

/-- Whether the first list occurs inside the second. -/
def charsInfix (needle : List Char) : List Char → Bool
  | [] => charsPrefix needle []
  | y :: ys => charsPrefix needle (y :: ys) || charsInfix needle ys

/-- `String.prototype.includes`: whether `needle` occurs in `s`. -/
def strIncludes (s needle : String) : Bool :=
  charsInfix needle.toList s.toList

/-- Everything before the first occurrence of `c` (the whole list when
`c` does not occur). -/
def takeUntilChar (c : Char) : List Char → List Char
  | [] => []
  | x :: xs => if x = c then [] else x :: takeUntilChar c xs

/-- `s.split(c)[0]` on a one-character separator: the text before the
first occurrence of `c` (all of `s` when `c` does not occur). -/
def splitHead (s : String) (c : Char) : String :=
  String.mk (takeUntilChar c s.toList)

/-- `String.prototype.slice(0, n)`: the first `n` characters. -/
def strTake (s : String) (n : Nat) : String :=
  String.mk (s.toList.take n)

/-- Result of one `handleMcpRequest` invocation: a response object, the
`null` no-response sentinel, or a thrown exception (a rejected promise)
escaping the function with the given message. -/
inductive DispatchResult where
  | response (r : RpcResponse)
  | noResponse
  | thrown (msg : String)
deriving DecidableEq, Repr

/-- Whether the dispatch outcome is a thrown exception. -/
def DispatchResult.isThrown : DispatchResult → Bool
  | .thrown _ => true
  | _ => false

/-- The response object of a dispatch outcome, if any. -/
def DispatchResult.responseOf : DispatchResult → Option RpcResponse
  | .response r => some r
  | _ => none

/-- Message of the `TypeError` thrown by
`const { name, arguments: args } = params` when `params` is
absent or `null` (engine wording abstracted, apostrophes omitted). -/
def destructureMsg : String :=
  "Cannot destructure property name of params as it is undefined."

/-- `handleMcpRequest(request, sessionId)` from `src/index.js`
(the `sessionId` argument is never read by the function and is omitted).
The two tool handlers are asynchronous calls whose outcomes depend on the
external provider and the store; the embedding parametrises the dispatcher
by those outcomes: `g` is the outcome of `generateNapkinVisual(args)`
(`Except.error` = rejected promise caught by the surrounding `try`), and
`b` likewise for `bundleImages(args)` (whose success value is a string). -/
def handleMcpRequest (g : Except String (List ContentBlock))
    (b : Except String String) (req : Request) : DispatchResult :=
  if req.method = some "initialize" then
    .response (jsonRpcResponse req.id
      (.initResult "2024-11-05" "napkin-mcp-bridge" "1.1.0"))
  else if req.method = some "notifications/initialized" then
    .noResponse
  else if req.method = some "tools/list" then
    .response (jsonRpcResponse req.id (.toolsList TOOLS))
  else if req.method = some "tools/call" then
    match req.params with
    | none => .thrown destructureMsg
    | some p =>
      if p.nameOf = some "generate_visual" then
        match g with
        | .ok content =>
          .response (jsonRpcResponse req.id (.toolContent content false))
        | .error e =>
          .response (jsonRpcResponse req.id
            (.toolContent [.text ("Error generating visual: " ++ e)] true))
      else if p.nameOf = some "bundle_images" then
        match b with
        | .ok msg =>
          .response (jsonRpcResponse req.id (.toolContent [.text msg] false))
        | .error e =>
          .response (jsonRpcResponse req.id
            (.toolContent [.text ("Error bundling images: " ++ e)] true))
      else
        .response (jsonRpcError req.id (-32601)
          ("Unknown tool: " ++ optStr p.nameOf))
  else if req.method = some "ping" then
    .response (jsonRpcResponse req.id .emptyObj)
  else
    .response (jsonRpcError req.id (-32601)
      ("Method not found: " ++ optStr req.method))

/-! ## HTTP POST /mcp layer -/

/-- Per-entry handler outcomes supplied to a POST invocation (entry `i` of
a batch uses oracle index `i`; a single request uses index `0`). -/
abbrev Outcomes := Except String (List ContentBlock) × Except String String

/-- Body of a POST to `/mcp`: a single request object or a batch array. -/
inductive HttpBody where
  | single (r : Request)
  | batch (rs : List Request)
deriving DecidableEq, Repr

/-- Reply of the POST handler: 204 No Content, a 200 JSON array (batch),
a 200 JSON object, or a 500 with a JSON-RPC error body. -/
inductive HttpReply where
  | noContent
  | jsonArr (responses : List RpcResponse)
  | jsonObj (resp : RpcResponse)
  | serverError (resp : RpcResponse)
deriving DecidableEq, Repr

/-- Whether the reply is a 200 JSON array. -/
def HttpReply.isArr : HttpReply → Bool
  | .jsonArr _ => true
  | _ => false

/-- The batch loop of `app.post('/mcp')`: handle each entry in order,
pushing non-`null` responses; a thrown exception aborts the loop and
escapes to the surrounding `catch`. -/
def runBatch (o : Nat → Outcomes) : List Request → Nat →
    Except String (List RpcResponse)
  | [], _ => .ok []
  | r :: rs, i =>
    match handleMcpRequest (o i).1 (o i).2 r with
    | .thrown m => .error m
    | .noResponse => runBatch o rs (i + 1)
    | .response resp =>
      match runBatch o rs (i + 1) with
      | .error m => .error m
      | .ok rest => .ok (resp :: rest)

/-- `app.post('/mcp')` from `src/index.js`, after body parsing and session
bookkeeping: batch arrays are looped over (responses of `null` omitted),
a single request answering `null` yields 204, and any exception is caught
and reported as a 500 with `jsonRpcError(null, -32603, message)`. -/
def handlePost (o : Nat → Outcomes) (body : HttpBody) : HttpReply :=
  match body with
  | .batch reqs =>
    match runBatch o reqs 0 with
    | .ok responses => .jsonArr responses
    | .error m => .serverError (jsonRpcError .null (-32603) m)
  | .single r =>
    match handleMcpRequest (o 0).1 (o 0).2 r with
    | .thrown m => .serverError (jsonRpcError .null (-32603) m)
    | .noResponse => .noContent
    | .response resp => .jsonObj resp

/-! ## Artifact store (`imageStore`) -/

/-- Binary file contents (a `Buffer`), as a byte list. -/
abbrev ByteData := List Nat

/-- A value of the `imageStore` map: either an image record
`{data, mimeType, filename, created}` or a bundle record
`{type:'bundle', imageIds, created}`.  The constructor plays the role of
the `type === 'bundle'` tag used by lookups. -/
inductive StoreItem where
  | artifact (data : ByteData) (mimeType : String) (filename : String)
      (created : Nat)
  | bundle (imageIds : List String) (created : Nat)
deriving DecidableEq, Repr

/-- The `created` timestamp of a store value (milliseconds). -/
def StoreItem.created : StoreItem → Nat
  | .artifact _ _ _ c => c
  | .bundle _ c => c

/-- The `filename` property of a store value; reading it off a bundle
record yields `undefined`, which string interpolation renders as the
text `undefined`. -/
def StoreItem.filenameOf : StoreItem → String
  | .artifact _ _ fn _ => fn
  | .bundle _ _ => "undefined"

/-- The `imageStore` `Map`, as its lookup function. -/
abbrev Store := String → Option StoreItem

/-- `Map.prototype.set`: overwrite/insert one key. -/
def Store.set (s : Store) (k : String) (v : StoreItem) : Store :=
  fun q => if q = k then some v else s q

/-- An empty `Map`. -/
def Store.empty : Store := fun _ => none

/-- Build a store from explicit bindings (first binding wins). -/
def Store.ofList (l : List (String × StoreItem)) : Store :=
  fun q => (l.find? (fun p => p.1 = q)).map (·.2)

/-! ## bundle_images (`bundleImages`) -/

/-- The validation loop of `bundleImages`: look each id up in order,
throwing on the first id absent from the store, otherwise collecting the
`{id, ...img}` records. -/
def collectImages (s : Store) : List String →
    Except String (List (String × StoreItem))
  | [] => .ok []
  | id :: rest =>
    match s id with
    | none => .error ("Image not found: " ++ id ++ ". Images expire after 1 hour.")
    | some img =>
      match collectImages s rest with
      | .error e => .error e
      | .ok l => .ok ((id, img) :: l)

/-- The success message built by `bundleImages`. -/
def bundleMessage (baseUrl bundleId : String)
    (images : List (String × StoreItem)) : String :=
  let downloadUrl :=
    if baseUrl = "" then "/download/zip/" ++ bundleId
    else baseUrl ++ "/download/zip/" ++ bundleId
  "✅ Bundle created with " ++ toString images.length ++ " images!\n\n" ++
  "🔗 Download ZIP: " ++ downloadUrl ++ "\n\nImages included:\n" ++
  String.intercalate "\n"
    ((images.enum).map fun p =>
      toString (p.1 + 1) ++ ". " ++ p.2.2.filenameOf) ++
  "\n\n⚠️ Link expires in 1 hour."

/-- `bundleImages(args)` from `src/index.js`, with the ambient state made
explicit: `baseUrl` is the `BASE_URL` configuration, `bundleUUID` the
`randomUUID()` drawn for this call, `now` the `Date.now()` timestamp, and
the store is threaded through.  `imageIds := none` models an `image_ids`
argument that is absent/`null` (the `!image_ids` guard).  The first
component is the returned message or the thrown error; the second is the
store after the call. -/
def bundleImages (baseUrl bundleUUID : String) (now : Nat)
    (imageIds : Option (List String)) (s : Store) :
    Except String String × Store :=
  match imageIds with
  | none => (.error "No image IDs provided", s)
  | some ids =>
    if ids.length = 0 then (.error "No image IDs provided", s)
    else
      match collectImages s ids with
      | .error e => (.error e, s)
      | .ok images =>
        let s2 := s.set ("bundle_" ++ bundleUUID) (.bundle ids now)
        (.ok (bundleMessage baseUrl bundleUUID images), s2)

/-! ## Download routes and expiry sweeper -/

/-- Reply of `GET /download/:id`: the file (content-type, disposition
filename, bytes) or a 404 JSON body. -/
inductive DownloadReply where
  | notFound
  | file (mimeType : String) (filename : String) (data : ByteData)
deriving DecidableEq, Repr

/-- `app.get('/download/:id')` from `src/index.js`: 404 when the id is
absent or resolves to a bundle record, otherwise the stored bytes with
their mime type and filename. -/
def downloadImage (s : Store) (id : String) : DownloadReply :=
  match s id with
  | some (.artifact data mt fn _) => .file mt fn data
  | _ => .notFound

/-- Reply of `GET /download/zip/:bundleId`: a zip of named entries or a
404 JSON body.  Archive packaging itself is external; the reply carries
the ordered (filename, bytes) sequence appended to the archive. -/
inductive ZipReply where
  | notFound
  | zipFile (zipName : String) (entries : List (String × ByteData))
deriving DecidableEq, Repr

/-- `app.get('/download/zip/:bundleId')` from `src/index.js`: look up
`bundle_<id>`, 404 unless it is a bundle record, then append every member
that is still present and not itself a bundle record. -/
def serveZip (s : Store) (bundleId : String) : ZipReply :=
  match s ("bundle_" ++ bundleId) with
  | some (.bundle ids _) =>
    .zipFile ("napkin_images_" ++ strTake bundleId 8 ++ ".zip")
      (ids.filterMap fun i =>
        match s i with
        | some (.artifact d _ fn _) => some (fn, d)
        | _ => none)
  | _ => .notFound

/-- The image half of the 60-second `setInterval` sweep: delete every
entry whose age `now - created` exceeds one hour (3600000 ms).
`Nat` subtraction agrees with the JavaScript comparison whenever
`created ≤ now`, and both sides keep entries timestamped in the future. -/
def sweepImageStore (now : Nat) (s : Store) : Store :=
  fun k =>
    match s k with
    | some item => if now - item.created > 3600000 then none else some item
    | none => none

/-! ## Job poller (`generateNapkinVisual`) -/

/-- JavaScript truthiness of a possibly-absent string: `undefined`,
`null` and the empty string are falsy. -/
def jsTruthy : Option String → Bool
  | none => false
  | some s => s ≠ ""

/-- The `a || b` idiom on possibly-absent strings. -/
def jsOrStr (a b : Option String) : Option String :=
  if jsTruthy a then a else b

/-- One element of the `generated_files` list of a status payload (its
`url` property may be absent). -/
structure GenFile where
  url : Option String
deriving DecidableEq, Repr

/-- The JSON payload of a status poll (`statusData`): its `status`,
`generated_files`, `url` and `error` properties, each possibly absent. -/
structure StatusData where
  status : Option String
  generatedFiles : Option (List GenFile)
  url : Option String
  errorMsg : Option String
deriving DecidableEq, Repr

/-- Outcome of one status poll: the HTTP request failed (`!ok`, the
`continue` branch) or returned a parsed payload. -/
inductive PollOutcome where
  | httpFail
  | ok (data : StatusData)
deriving DecidableEq, Repr

/-- `true` when the poll outcome does not end the loop: a failed poll
request, or a status other than `completed`/`failed`/`error`. -/
def isNonTerminal : PollOutcome → Bool
  | .httpFail => true
  | .ok d =>
    d.status ≠ some "completed" ∧ d.status ≠ some "failed" ∧
      d.status ≠ some "error"

/-- Outcome of the creation POST to the provider: a non-2xx response with
its status and raw body text, or a parsed body carrying possibly-absent
`id` and `request_id` fields. -/
inductive CreateOutcome where
  | notOk (status : Nat) (body : String)
  | ok (id : Option String) (requestId : Option String)
deriving DecidableEq, Repr

/-- Outcome of fetching the artifact download URL: non-2xx with its
status, or 2xx with the `content-type` header (absent when the response
carries none) and the body bytes. -/
inductive FetchOutcome where
  | notOk (status : Nat)
  | ok (contentType : Option String) (body : ByteData)
deriving DecidableEq, Repr

/-- The external world of one `generateNapkinVisual` call: the creation
response, the status payload of each poll attempt, the file fetch, the
`randomUUID().slice(0, 8)` image id drawn for this call, the `Date.now()`
store timestamp, and the `BASE_URL` configuration. -/
structure NapkinEnv where
  create : CreateOutcome
  polls : Nat → PollOutcome
  fetchFile : String → FetchOutcome
  freshImageId : String
  now : Nat
  baseUrl : String

/-- Tool arguments of `generate_visual`
(`const { content, visual_type, format = "png", filename } = args`). -/
structure GenArgs where
  content : String
  visualType : Option String
  format : Option String
  filename : Option String
deriving DecidableEq, Repr

/-- `maxAttempts` of the poll loop. -/
def maxAttempts : Nat := 12

/-- The timeout message thrown after the poll loop exhausts its budget. -/
def timeoutMsg : String :=
  "Visual generation timed out after 24 seconds. Try a simpler prompt."

/-- Rendering of `JSON.stringify(statusData)` used inside diagnostic
texts (the exact JSON serialisation is abstracted into a faithful
field-by-field rendering; no claim inspects this string). -/
def statusDataRepr (d : StatusData) : String :=
  "\x7bstatus: " ++ optStr d.status ++ ", url: " ++ optStr d.url ++
    ", error: " ++ optStr d.errorMsg ++ "\x7d"

/-- `Buffer.prototype.toString with base64`, abstracted as an injective
rendering of the bytes (no claim inspects the encoded text). -/
def base64Of (b : ByteData) : String :=
  "base64:" ++ toString b

/-- The download-URL selection of the `completed` branch:
prefer `generated_files[0].url` when `generated_files` is a non-empty
list (even if that entry has no `url`); otherwise fall back to a truthy
top-level `url`; otherwise stay unset. -/
def fileUrlOf (d : StatusData) : Option String :=
  match d.generatedFiles with
  | some (f :: _) => f.url
  | _ => if jsTruthy d.url then d.url else none

/-- The `status === "completed"` branch of the poll loop: locate a
download URL (diagnostic text result when absent), fetch it (diagnostic
text result on non-2xx), then decode, store the artifact and return the
image + text content blocks. -/
def completedBranch (env : NapkinEnv) (args : GenArgs) (d : StatusData)
    (s : Store) : Except String (List ContentBlock) × Store :=
  let fileUrl := fileUrlOf d
  if jsTruthy fileUrl = false then
    (.ok [.text ("✅ Visual completed but no download URL found. Response: " ++
        statusDataRepr d)], s)
  else
    let url := fileUrl.getD ""
    match env.fetchFile url with
    | .notOk st =>
      (.ok [.text ("✅ Visual generated but failed to download: " ++
          toString st ++ ". URL: " ++ url)], s)
    | .ok ct body =>
      let contentType :=
        match ct with
        | none => "image/png"
        | some h => if h = "" then "image/png" else h
      let base64 := base64Of body
      let mimeType := splitHead contentType ';' 
      let imageId := env.freshImageId
      let ext :=
        if strIncludes mimeType "svg" then "svg"
        else if strIncludes mimeType "png" then "png" else "jpg"
      let finalFilename :=
        if jsTruthy args.filename then args.filename.getD "" ++ "." ++ ext
        else "napkin_" ++ imageId ++ "." ++ ext
      let s2 := s.set imageId (.artifact body mimeType finalFilename env.now)
      let downloadUrl :=
        if env.baseUrl = "" then "/download/" ++ imageId
        else env.baseUrl ++ "/download/" ++ imageId
      (.ok [ .image base64 mimeType
           , .text ("📎 Image ID: `" ++ imageId ++ "`\n🔗 Direct download: " ++
               downloadUrl ++ "\n📁 Filename: " ++ finalFilename) ], s2)

/-- The `for (let attempt = 0; attempt < maxAttempts; attempt++)` poll
loop: each iteration sleeps, polls, skips the attempt on a failed poll
request, dispatches on the reported status, and once the budget is
exhausted the loop falls through to the timeout throw.  The loop counter
`attempt`, paired with `remaining = maxAttempts - attempt`, mirrors the
source loop bound: `remaining = 0` is the `attempt < maxAttempts` exit. -/
def pollLoop (env : NapkinEnv) (args : GenArgs) (s : Store) :
    (attempt : Nat) → (remaining : Nat) →
    Except String (List ContentBlock) × Store
  | _, 0 => (.error timeoutMsg, s)
  | attempt, r + 1 =>
    match env.polls attempt with
    | .httpFail => pollLoop env args s (attempt + 1) r
    | .ok d =>
      if d.status = some "completed" then
        completedBranch env args d s
      else if d.status = some "failed" ∨ d.status = some "error" then
        (.error ("Visual generation failed: " ++
            (if jsTruthy d.errorMsg then optStr d.errorMsg
             else "Unknown error")), s)
      else
        pollLoop env args s (attempt + 1) r

/-- `generateNapkinVisual(args)` from `src/index.js`: submit the creation
request, extract `id || request_id`, then run the poll loop.  The first
component is the resolved `{content}` list or the thrown error message;
the second is the image store after the call. -/
def generateNapkinVisual (env : NapkinEnv) (args : GenArgs) (s : Store) :
    Except String (List ContentBlock) × Store :=
  match env.create with
  | .notOk st body =>
    (.error ("Napkin API error (" ++ toString st ++ "): " ++ body), s)
  | .ok cid crid =>
    let requestId := jsOrStr cid crid
    if jsTruthy requestId = false then
      (.error "No request ID returned from Napkin API", s)
    else
      pollLoop env args s 0 maxAttempts

/-! ## Shared concrete fixtures -/

/-- A fixed outcome oracle for concrete evaluations. -/
def sampleOutcomes : Nat → Outcomes := fun _ => (.ok [], .ok "ok")

/-- Helper: the dispatcher returns the no-response sentinel exactly for
method `notifications/initialized`. -/
theorem handleMcpRequest_noResponse_iff
    (g : Except String (List ContentBlock)) (b : Except String String)
    (req : Request) :
    handleMcpRequest g b req = .noResponse ↔
      req.method = some "notifications/initialized" := by
  unfold handleMcpRequest
  split_ifs with h1 h2 h3 h4 h5
  · simp [h1]
  · simp [h2]
  · simp [h3]
  · rcases hp : req.params with _ | pp
    · simp [h4, hp]
    · by_cases hg : pp.nameOf = some "generate_visual"
      · cases g <;> simp [h4, hp, hg]
      · by_cases hb : pp.nameOf = some "bundle_images"
        · cases b <;> simp [h4, hp, hg, hb]
        · simp [h4, hp, hg, hb]
  · simp [h5]
  · simp [h1, h2, h3, h4, h5]

/-- C1 (counterexample): a request whose `id` is `null` but whose method
is `ping` yields a JSON-RPC response object — not the no-response
sentinel — and the HTTP layer answers it with a 200 JSON body, not 204.
This refutes the claim that `id` absent/null alone makes a call a
notification. -/
theorem c1_counterexample_ping_null_id :
    handleMcpRequest (.ok []) (.ok "ok")
        (⟨some "ping", .null, none⟩ : Request) =
      .response (jsonRpcResponse .null .emptyObj) ∧
    handlePost sampleOutcomes
        (.single (⟨some "ping", .null, none⟩ : Request)) =
      .jsonObj (jsonRpcResponse .null .emptyObj) := by
  constructor <;> rfl

/-- C1 (amended): the dispatcher returns the no-response sentinel exactly
for requests whose method is `notifications/initialized`, regardless of
the `id` field; and when such a request arrives as a single object the
HTTP layer answers 204 No Content with no JSON-RPC body. -/
theorem c1_notification_sentinel_amended (o : Nat → Outcomes)
    (g : Except String (List ContentBlock)) (b : Except String String)
    (req : Request) :
    (handleMcpRequest g b req = .noResponse ↔
      req.method = some "notifications/initialized") ∧
    (req.method = some "notifications/initialized" →
      handlePost o (.single req) = .noContent) := by
  refine ⟨handleMcpRequest_noResponse_iff g b req, fun hm => ?_⟩
  have hnull : handleMcpRequest (o 0).1 (o 0).2 req = .noResponse :=
    (handleMcpRequest_noResponse_iff _ _ req).mpr hm
  simp [handlePost, hnull]

/-- C1 witness: the amended statement evaluated at a concrete
`notifications/initialized` request. -/
theorem c1_witness :
    handleMcpRequest (.ok []) (.ok "ok")
        (⟨some "notifications/initialized", .num 7, none⟩ : Request) = .noResponse ∧
    handlePost sampleOutcomes
        (.single (⟨some "notifications/initialized", .num 7, none⟩ : Request)) = .noContent := by
  constructor
  · exact (c1_notification_sentinel_amended sampleOutcomes (.ok []) (.ok "ok")
      (⟨some "notifications/initialized", .num 7, none⟩ : Request)).1.mpr rfl
  · exact (c1_notification_sentinel_amended sampleOutcomes (.ok []) (.ok "ok")
      (⟨some "notifications/initialized", .num 7, none⟩ : Request)).2 rfl

/-- C2 (counterexample): a `tools/call` request with absent `params`
makes the dispatcher throw (the destructuring `TypeError`), so the
dispatcher does not return a response or the sentinel for every parsed
request object; the HTTP layer converts the exception into a 500 with
JSON-RPC error -32603 rather than an in-band tool error. -/
theorem c2_counterexample_params_absent :
    (handleMcpRequest (.ok []) (.ok "ok")
        (⟨some "tools/call", .num 1, none⟩ : Request)).isThrown = true ∧
    handlePost sampleOutcomes
        (.single (⟨some "tools/call", .num 1, none⟩ : Request)) =
      .serverError (jsonRpcError .null (-32603) destructureMsg) := by
  constructor <;> rfl

/-- C2 (amended): for every parsed request that is not a `tools/call`
with absent-or-null `params`, the dispatcher returns a JSON-RPC response
object or the no-response sentinel and never throws; a failing
`generate_visual` or `bundle_images` handler is converted to a successful
response carrying `isError: true` with a single text block. -/
theorem c2_dispatcher_no_throw_amended
    (g : Except String (List ContentBlock)) (b : Except String String)
    (req : Request)
    (hp : req.method = some "tools/call" → req.params ≠ none) :
    (handleMcpRequest g b req).isThrown = false ∧
    (∀ e p, g = .error e → req.method = some "tools/call" →
      req.params = some p → p.nameOf = some "generate_visual" →
      handleMcpRequest g b req =
        .response (jsonRpcResponse req.id
          (.toolContent [.text ("Error generating visual: " ++ e)] true))) ∧
    (∀ e p, b = .error e → req.method = some "tools/call" →
      req.params = some p → p.nameOf = some "bundle_images" →
      handleMcpRequest g b req =
        .response (jsonRpcResponse req.id
          (.toolContent [.text ("Error bundling images: " ++ e)] true))) := by
  refine ⟨?_, ?_, ?_⟩
  · unfold handleMcpRequest
    split_ifs with h1 h2 h3 h4 h5
    · rfl
    · rfl
    · rfl
    · rcases hps : req.params with _ | pp
      · exact absurd hps (hp h4)
      · by_cases hg : pp.nameOf = some "generate_visual"
        · cases g <;> simp [hps, hg, DispatchResult.isThrown]
        · by_cases hb : pp.nameOf = some "bundle_images"
          · cases b <;> simp [hps, hg, hb, DispatchResult.isThrown]
          · simp [hps, hg, hb, DispatchResult.isThrown]
    · rfl
    · rfl
  · intro e p hg hm hps hn
    unfold handleMcpRequest
    simp [hm, hps, hn, hg]
  · intro e p hb hm hps hn
    unfold handleMcpRequest
    simp [hm, hps, hn, hb]

/-- C2 witness: the amended statement evaluated at a concrete
`tools/call` for `generate_visual` whose handler fails. -/
theorem c2_witness :
    (handleMcpRequest (.error "boom") (.ok "ok")
        (⟨some "tools/call", .num 2, some (.obj (some "generate_visual"))⟩ : Request)).isThrown
      = false ∧
    handleMcpRequest (.error "boom") (.ok "ok")
        (⟨some "tools/call", .num 2, some (.obj (some "generate_visual"))⟩ : Request) =
      .response (jsonRpcResponse (.num 2)
        (.toolContent [.text "Error generating visual: boom"] true)) := by
  have h := c2_dispatcher_no_throw_amended (.error "boom") (.ok "ok")
    (⟨some "tools/call", .num 2, some (.obj (some "generate_visual"))⟩ : Request)
    (fun _ hn => by exact absurd hn (by simp))
  exact ⟨h.1, h.2.1 "boom" (.obj (some "generate_visual")) rfl rfl rfl rfl⟩

/-- C6 (confirmed): a well-formed `tools/call` whose `params.name` is
neither `generate_visual` nor `bundle_images` yields the JSON-RPC error
-32601 whose message names the requested tool; the result does not depend
on either tool handler outcome (no handler is invoked). -/
theorem c6_unknown_tool (g : Except String (List ContentBlock))
    (b : Except String String) (id : RpcId) (p : ParamsVal) (n : String)
    (hn : p.nameOf = some n) (hg : n ≠ "generate_visual")
    (hb : n ≠ "bundle_images") :
    handleMcpRequest g b (⟨some "tools/call", id, some p⟩ : Request) =
      .response (jsonRpcError id (-32601) ("Unknown tool: " ++ n)) := by
  unfold handleMcpRequest
  simp [hn, hg, hb, optStr]

/-- C6 witness: the statement evaluated at the unknown tool name
`frobnicate`, for two different handler-outcome pairs. -/
theorem c6_witness :
    handleMcpRequest (.ok []) (.ok "ok")
        (⟨some "tools/call", .str "q", some (.obj (some "frobnicate"))⟩ : Request) =
      .response (jsonRpcError (.str "q") (-32601)
        "Unknown tool: frobnicate") ∧
    handleMcpRequest (.error "x") (.error "y")
        (⟨some "tools/call", .str "q", some (.obj (some "frobnicate"))⟩ : Request) =
      .response (jsonRpcError (.str "q") (-32601)
        "Unknown tool: frobnicate") := by
  exact ⟨c6_unknown_tool (.ok []) (.ok "ok") (.str "q")
      (.obj (some "frobnicate")) "frobnicate" rfl (by decide) (by decide),
    c6_unknown_tool (.error "x") (.error "y") (.str "q")
      (.obj (some "frobnicate")) "frobnicate" rfl (by decide) (by decide)⟩

/-- Helper: when no batch entry's handling throws, the batch loop
collects, in input order, exactly the response objects of the entries
whose handling is not the no-response sentinel. -/
theorem runBatch_of_no_thrown (o : Nat → Outcomes) :
    ∀ (reqs : List Request) (i : Nat),
      (∀ p ∈ reqs.enumFrom i,
        (handleMcpRequest (o p.1).1 (o p.1).2 p.2).isThrown = false) →
      runBatch o reqs i =
        .ok ((reqs.enumFrom i).filterMap fun p =>
          (handleMcpRequest (o p.1).1 (o p.1).2 p.2).responseOf) := by
  intro reqs
  induction reqs with
  | nil => intro i _; simp [runBatch, List.enumFrom]
  | cons r rs ih =>
    intro i h
    have hr := h (i, r) (by simp [List.enumFrom])
    have htail : ∀ p ∈ rs.enumFrom (i + 1),
        (handleMcpRequest (o p.1).1 (o p.1).2 p.2).isThrown = false := by
      intro p hp
      exact h p (by simp [List.enumFrom, hp])
    rcases hd : handleMcpRequest (o i).1 (o i).2 r with resp | _ | m
    · simp [runBatch, hd, ih (i + 1) htail, List.enumFrom,
        DispatchResult.responseOf]
    · simp [runBatch, hd, ih (i + 1) htail, List.enumFrom,
        DispatchResult.responseOf]
    · rw [hd] at hr
      simp [DispatchResult.isThrown] at hr

/-- C7 (counterexample): a batch containing a `tools/call` entry with
absent `params` makes the whole POST answer a single 500 JSON-RPC error
object — no response array is returned at all, so the non-notification
responses cannot match the input entries. -/
theorem c7_counterexample_throwing_entry :
    handlePost sampleOutcomes
        (.batch [(⟨some "tools/call", .num 1, none⟩ : Request)]) =
      .serverError (jsonRpcError .null (-32603) destructureMsg) ∧
    (handlePost sampleOutcomes
        (.batch [(⟨some "tools/call", .num 1, none⟩ : Request)])).isArr
      = false := by
  constructor <;> rfl

/-- C7 (amended): for every batch request none of whose entries throws
(no `tools/call` entry with absent-or-null `params`), the entries are
handled sequentially in input order, entries whose handling yields the
no-response sentinel are omitted, and the returned array contains exactly
the responses of the remaining entries in input order; an entry yields no
response precisely when its method is `notifications/initialized`. -/
theorem c7_batch_order_amended (o : Nat → Outcomes) (reqs : List Request)
    (h : ∀ p ∈ reqs.enum,
      (handleMcpRequest (o p.1).1 (o p.1).2 p.2).isThrown = false) :
    handlePost o (.batch reqs) =
      .jsonArr ((reqs.enum).filterMap fun p =>
        (handleMcpRequest (o p.1).1 (o p.1).2 p.2).responseOf) ∧
    (∀ p ∈ reqs.enum,
      ((handleMcpRequest (o p.1).1 (o p.1).2 p.2).responseOf = none ↔
        p.2.method = some "notifications/initialized")) := by
  constructor
  · have := runBatch_of_no_thrown o reqs 0 (by simpa [List.enum] using h)
    simp [handlePost, List.enum] at this ⊢
    simp [this]
  · intro p hp
    have hnt := h p hp
    rw [← handleMcpRequest_noResponse_iff (o p.1).1 (o p.1).2 p.2]
    rcases hd : handleMcpRequest (o p.1).1 (o p.1).2 p.2 with resp | _ | m
    · simp [DispatchResult.responseOf]
    · simp [DispatchResult.responseOf]
    · rw [hd] at hnt
      simp [DispatchResult.isThrown] at hnt

/-- C7 witness: the amended statement evaluated on the concrete batch
`[initialize (id 1), notifications/initialized, ping (id 2)]`, whose
answer is the two responses in input order with the notification
omitted. -/
theorem c7_witness :
    handlePost sampleOutcomes
        (.batch [ (⟨some "initialize", .num 1, none⟩ : Request)
                , (⟨some "notifications/initialized", .absent, none⟩ : Request)
                , (⟨some "ping", .num 2, none⟩ : Request) ]) =
      .jsonArr [ jsonRpcResponse (.num 1)
                   (.initResult "2024-11-05" "napkin-mcp-bridge" "1.1.0")
               , jsonRpcResponse (.num 2) .emptyObj ] := by
  have h := c7_batch_order_amended sampleOutcomes
    [ (⟨some "initialize", .num 1, none⟩ : Request)
    , (⟨some "notifications/initialized", .absent, none⟩ : Request)
    , (⟨some "ping", .num 2, none⟩ : Request) ] (by decide)
  rw [h.1]
  rfl

/-- Helper: the validation loop of `bundleImages` throws on the first id
absent from the store, naming that id. -/
theorem collectImages_first_missing (s : Store) :
    ∀ (pre : List String) (m : String) (post : List String),
      (∀ x ∈ pre, (s x).isSome = true) → s m = none →
      collectImages s (pre ++ m :: post) =
        .error ("Image not found: " ++ m ++
          ". Images expire after 1 hour.") := by
  intro pre
  induction pre with
  | nil =>
    intro m post _ hm
    simp [collectImages, hm]
  | cons x xs ih =>
    intro m post hpre hm
    have hx : (s x).isSome = true := hpre x (by simp)
    rcases hv : s x with _ | v
    · rw [hv] at hx; simp at hx
    · have htail := ih m post (fun y hy => hpre y (by simp [hy])) hm
      simp [collectImages, hv, htail]

/-- C5 (confirmed): `bundleImages` is strict and atomic at creation time.
An absent/empty `image_ids` sequence fails with an error; a sequence
whose first missing id is `m` fails with an error naming `m`; and in
every failing case the returned store is exactly the input store — no
bundle record is added. -/
theorem c5_bundle_strict_atomic (baseUrl u : String) (now : Nat)
    (s : Store) :
    bundleImages baseUrl u now none s = (.error "No image IDs provided", s) ∧
    bundleImages baseUrl u now (some []) s =
      (.error "No image IDs provided", s) ∧
    (∀ pre m post, (∀ x ∈ pre, (s x).isSome = true) → s m = none →
      bundleImages baseUrl u now (some (pre ++ m :: post)) s =
        (.error ("Image not found: " ++ m ++
          ". Images expire after 1 hour."), s)) := by
  refine ⟨rfl, rfl, ?_⟩
  intro pre m post hpre hm
  have hcol := collectImages_first_missing s pre m post hpre hm
  have hlen : (pre ++ m :: post).length ≠ 0 := by simp
  simp [bundleImages, hlen, hcol]

/-- C5 witness: the statement evaluated on a store holding only artifact
`a`: bundling `[]` and bundling `["a", "missing"]` both fail, naming
`missing`, and both leave the store unchanged. -/
theorem c5_witness :
    bundleImages "" "u1" 99 (some [])
        (Store.ofList [("a", .artifact [1] "image/png" "a.png" 0)]) =
      (.error "No image IDs provided",
        Store.ofList [("a", .artifact [1] "image/png" "a.png" 0)]) ∧
    bundleImages "" "u1" 99 (some ["a", "missing"])
        (Store.ofList [("a", .artifact [1] "image/png" "a.png" 0)]) =
      (.error "Image not found: missing. Images expire after 1 hour.",
        Store.ofList [("a", .artifact [1] "image/png" "a.png" 0)]) := by
  have h := c5_bundle_strict_atomic "" "u1" 99
    (Store.ofList [("a", .artifact [1] "image/png" "a.png" 0)])
  refine ⟨h.2.1, ?_⟩
  have := h.2.2 ["a"] "missing" []
    (by intro x hx; fin_cases hx; rfl) rfl
  simpa using this

/-- C8 (confirmed): for an artifact stored with timestamp `T`, any sweep
at a time up to `T + 3600000` ms leaves it retrievable (in particular at
`T + 3599`s), any sweep strictly after `T + 3600000` ms (in particular
one between `T + 3600`s and a lookup at `T + 3601`s) evicts it so the
lookup answers not-found, and a sweep keeps exactly the entries whose age
does not exceed 3600 seconds. -/
theorem c8_ttl (s : Store) (id : String) (d : ByteData) (mt fn : String)
    (T : Nat) (hs : s id = some (.artifact d mt fn T)) :
    (∀ t, t ≤ T + 3600000 →
      downloadImage (sweepImageStore t s) id = .file mt fn d) ∧
    (∀ t, T + 3600000 < t →
      downloadImage (sweepImageStore t s) id = .notFound) ∧
    (∀ t k it, sweepImageStore t s k = some it ↔
      (s k = some it ∧ t - it.created ≤ 3600000)) := by
  refine ⟨?_, ?_, ?_⟩
  · intro t ht
    have hcond : ¬ (t - (StoreItem.artifact d mt fn T).created > 3600000) := by
      simp [StoreItem.created]; omega
    simp [downloadImage, sweepImageStore, hs, hcond]
  · intro t ht
    have hcond : t - (StoreItem.artifact d mt fn T).created > 3600000 := by
      simp [StoreItem.created]; omega
    simp [downloadImage, sweepImageStore, hs, hcond]
  · intro t k it
    unfold sweepImageStore
    rcases hk : s k with _ | it2
    · simp
    · by_cases hc : t - it2.created > 3600000
      · simp only [hc, if_pos]
        constructor
        · intro hfalse; exact absurd hfalse (by simp)
        · rintro ⟨hit, hle⟩
          injection hit with hit
          subst hit
          omega
      · simp only [hc, if_neg, not_false_eq_true]
        constructor
        · intro heq
          injection heq with heq
          subst heq
          exact ⟨rfl, by omega⟩
        · rintro ⟨hit, _⟩
          injection hit with hit
          subst hit
          rfl

/-- C8 witness: a concrete artifact stored at `T = 1000` survives a sweep
at `T + 3599000` ms and is gone after a sweep at `T + 3601000` ms. -/
theorem c8_witness :
    downloadImage
        (sweepImageStore 3600000
          (Store.ofList [("img1", .artifact [9] "image/png" "x.png" 1000)]))
        "img1" = .file "image/png" "x.png" [9] ∧
    downloadImage
        (sweepImageStore 3602000
          (Store.ofList [("img1", .artifact [9] "image/png" "x.png" 1000)]))
        "img1" = .notFound := by
  have h := c8_ttl
    (Store.ofList [("img1", .artifact [9] "image/png" "x.png" 1000)])
    "img1" [9] "image/png" "x.png" 1000 rfl
  exact ⟨h.1 3600000 (by omega), h.2.1 3602000 (by omega)⟩

/-- C10 (confirmed): serving an existing bundle record never fails due to
member state: the reply is always a zip whose entries are, in member
order, exactly the members still present as artifact records (missing
members and bundle-kind members are skipped), and a bundle all of whose
members are gone is served as a zip with no entries, not as not-found. -/
theorem c10_lenient_serving (s : Store) (bid : String) (ids : List String)
    (c : Nat) (hb : s ("bundle_" ++ bid) = some (.bundle ids c)) :
    serveZip s bid =
      .zipFile ("napkin_images_" ++ strTake bid 8 ++ ".zip")
        (ids.filterMap fun i =>
          match s i with
          | some (.artifact d _ fn _) => some (fn, d)
          | _ => none) ∧
    ((∀ i ∈ ids, ∀ d mt fn cr, s i ≠ some (.artifact d mt fn cr)) →
      serveZip s bid =
        .zipFile ("napkin_images_" ++ strTake bid 8 ++ ".zip") []) := by
  constructor
  · simp [serveZip, hb]
  · intro hnone
    have hnil : (ids.filterMap fun i =>
        match s i with
        | some (.artifact d _ fn _) => some (fn, d)
        | _ => none) = [] := by
      rw [List.filterMap_eq_nil_iff]
      intro i hi
      rcases hsi : s i with _ | it
      · rfl
      · rcases it with ⟨d, mt, fn, cr⟩ | ⟨mids, mc⟩
        · exact absurd hsi (hnone i hi d mt fn cr)
        · rfl
    simp [serveZip, hb, hnil]

/-- C10 witness: a bundle whose members are one live artifact, one
missing id and one bundle-kind record serves a zip with just the
artifact; a bundle whose only member is missing serves an empty zip. -/
theorem c10_witness :
    serveZip
        (Store.ofList
          [ ("bundle_b1", .bundle ["a", "gone", "x2"] 0)
          , ("a", .artifact [1] "image/png" "a.png" 0)
          , ("x2", .bundle [] 0)
          , ("bundle_b2", .bundle ["gone"] 0) ]) "b1" =
      .zipFile "napkin_images_b1.zip" [("a.png", [1])] ∧
    serveZip
        (Store.ofList
          [ ("bundle_b1", .bundle ["a", "gone", "x2"] 0)
          , ("a", .artifact [1] "image/png" "a.png" 0)
          , ("x2", .bundle [] 0)
          , ("bundle_b2", .bundle ["gone"] 0) ]) "b2" =
      .zipFile "napkin_images_b2.zip" [] := by
  constructor
  · have h := c10_lenient_serving
      (Store.ofList
        [ ("bundle_b1", .bundle ["a", "gone", "x2"] 0)
        , ("a", .artifact [1] "image/png" "a.png" 0)
        , ("x2", .bundle [] 0)
        , ("bundle_b2", .bundle ["gone"] 0) ]) "b1" ["a", "gone", "x2"] 0 rfl
    rw [h.1]
    rfl
  · have h := c10_lenient_serving
      (Store.ofList
        [ ("bundle_b1", .bundle ["a", "gone", "x2"] 0)
        , ("a", .artifact [1] "image/png" "a.png" 0)
        , ("x2", .bundle [] 0)
        , ("bundle_b2", .bundle ["gone"] 0) ]) "b2" ["gone"] 0 rfl
    rw [h.1]
    rfl

/-- Helper: if every poll outcome in the remaining window is
non-terminal, the poll loop exhausts its budget and throws the timeout
error, leaving the store unchanged. -/
theorem pollLoop_timeout_of_nonterminal (env : NapkinEnv) (args : GenArgs)
    (s : Store) :
    ∀ (r attempt : Nat),
      (∀ k, attempt ≤ k → k < attempt + r →
        isNonTerminal (env.polls k) = true) →
      pollLoop env args s attempt r = (.error timeoutMsg, s) := by
  intro r
  induction r with
  | zero => intro attempt _; rfl
  | succ r ih =>
    intro attempt hall
    have hk := hall attempt le_rfl (by omega)
    cases hp : env.polls attempt with
    | httpFail =>
      simp only [pollLoop, hp]
      exact ih (attempt + 1) (fun k h1 h2 => hall k (by omega) (by omega))
    | ok d =>
      rw [hp] at hk
      simp only [isNonTerminal, decide_eq_true_eq] at hk
      obtain ⟨h1, h2, h3⟩ := hk
      have hor : ¬ (d.status = some "failed" ∨ d.status = some "error") := by
        rintro (h | h)
        · exact h2 h
        · exact h3 h
      simp only [pollLoop, hp, if_neg h1, if_neg hor]
      exact ih (attempt + 1) (fun k ha hb => hall k (by omega) (by omega))

/-- A fixed `generate_visual` argument object for concrete evaluations. -/
def sampleGenArgs : GenArgs := ⟨"# Plan\n- step1\n- step2", none, none, none⟩

/-- C3 (confirmed): when the job submission succeeds with a usable job
identifier but no poll in the 12-attempt budget reports a terminal status
(`completed`, `failed` or `error`), the call fails with the timeout error,
whose message cites the 24-second bound. -/
theorem c3_poll_timeout (env : NapkinEnv) (args : GenArgs) (s : Store)
    (cid crid : Option String)
    (hc : env.create = .ok cid crid)
    (hid : jsTruthy (jsOrStr cid crid) = true)
    (hall : ∀ k, k < maxAttempts → isNonTerminal (env.polls k) = true) :
    generateNapkinVisual env args s = (.error timeoutMsg, s) ∧
    strIncludes timeoutMsg "24 seconds" = true := by
  constructor
  · unfold generateNapkinVisual
    rw [hc]
    simp only [hid, Bool.true_eq_false, if_false]
    exact pollLoop_timeout_of_nonterminal env args s maxAttempts 0
      (fun k _ hk => hall k (by simpa using hk))
  · rfl

/-- An environment whose provider accepts the job and then reports
`pending` forever. -/
def pendingEnv : NapkinEnv :=
  { create := .ok (some "j1") none
  , polls := fun _ => .ok ⟨some "pending", none, none, none⟩
  , fetchFile := fun _ => .notOk 500
  , freshImageId := "i1"
  , now := 0
  , baseUrl := "" }

/-- C3 witness: the statement evaluated against a provider that reports
`pending` on all 12 polls. -/
theorem c3_witness :
    generateNapkinVisual pendingEnv sampleGenArgs Store.empty =
      (.error timeoutMsg, Store.empty) ∧
    strIncludes timeoutMsg "24 seconds" = true :=
  c3_poll_timeout pendingEnv sampleGenArgs Store.empty (some "j1") none
    rfl rfl (by decide)

/-- C4 (confirmed): a poll attempt whose status request fails (non-2xx)
neither fails the overall call nor restarts the counting: the loop state
after the failed attempt `i` is exactly the loop state at attempt `i + 1`
with one attempt consumed from the fixed budget of `maxAttempts = 12` —
the budget is decremented, never reset. -/
theorem c4_transient_poll_skip (env : NapkinEnv) (args : GenArgs)
    (s : Store) (i : Nat) (hi : i < maxAttempts)
    (hp : env.polls i = .httpFail) :
    pollLoop env args s i (maxAttempts - i) =
      pollLoop env args s (i + 1) (maxAttempts - (i + 1)) := by
  have hr : maxAttempts - i = (maxAttempts - (i + 1)) + 1 := by omega
  rw [hr]
  simp only [pollLoop, hp]

/-- An environment whose first status poll fails at the HTTP level and
then reports `pending` forever. -/
def flakyPollEnv : NapkinEnv :=
  { create := .ok (some "j1") none
  , polls := fun k =>
      if k = 0 then .httpFail else .ok ⟨some "pending", none, none, none⟩
  , fetchFile := fun _ => .notOk 500
  , freshImageId := "i1"
  , now := 0
  , baseUrl := "" }

/-- C4 witness: the statement evaluated at attempt 0 of an environment
whose first poll request fails. -/
theorem c4_witness :
    pollLoop flakyPollEnv sampleGenArgs Store.empty 0 (maxAttempts - 0) =
      pollLoop flakyPollEnv sampleGenArgs Store.empty 1 (maxAttempts - 1) :=
  c4_transient_poll_skip flakyPollEnv sampleGenArgs Store.empty 0
    (by decide) rfl

/-- The `mimeType` of the leading image content block of a tool result,
if any. -/
def resultImageMime : Except String (List ContentBlock) → Option String
  | .ok (.image _ m :: _) => some m
  | _ => none

/-- The mime type stored for an artifact record, if any. -/
def storedMime (s : Store) (k : String) : Option String :=
  match s k with
  | some (.artifact _ m _ _) => some m
  | _ => none

/-- C9 (amended): for a successful artifact download reached through a
`completed` poll, an absent `content-type` header — or a present but
empty one — yields mime type `image/png` exactly, both in the stored
artifact record and in the returned image content block; a present
non-empty header yields the header value truncated at the first `;`
(parameters stripped). -/
theorem c9_mime_type_amended (env : NapkinEnv) (args : GenArgs) (s : Store)
    (cid crid : Option String) (d : StatusData) (u : String)
    (ct : Option String) (body : ByteData)
    (hc : env.create = .ok cid crid)
    (hid : jsTruthy (jsOrStr cid crid) = true)
    (hp0 : env.polls 0 = .ok d)
    (hst : d.status = some "completed")
    (hurl : fileUrlOf d = some u)
    (hu : u ≠ "")
    (hf : env.fetchFile u = .ok ct body) :
    (ct = none →
      resultImageMime (generateNapkinVisual env args s).1 =
        some "image/png" ∧
      storedMime (generateNapkinVisual env args s).2 env.freshImageId =
        some "image/png") ∧
    (ct = some "" →
      resultImageMime (generateNapkinVisual env args s).1 =
        some "image/png" ∧
      storedMime (generateNapkinVisual env args s).2 env.freshImageId =
        some "image/png") ∧
    (∀ h, ct = some h → h ≠ "" →
      resultImageMime (generateNapkinVisual env args s).1 =
        some (splitHead h ';') ∧
      storedMime (generateNapkinVisual env args s).2 env.freshImageId =
        some (splitHead h ';')) := by
  have hgen : generateNapkinVisual env args s = completedBranch env args d s := by
    unfold generateNapkinVisual
    rw [hc]
    simp only [hid, Bool.true_eq_false, if_false]
    rw [show maxAttempts = 11 + 1 from rfl]
    simp only [pollLoop, hp0, hst, if_pos]
  rw [hgen]
  refine ⟨?_, ?_, ?_⟩
  · intro hct
    subst hct
    constructor
    · simp [completedBranch, hurl, jsTruthy, hu, hf, resultImageMime]
      decide
    · simp [completedBranch, hurl, jsTruthy, hu, hf, storedMime, Store.set]
      decide
  · intro hct
    subst hct
    constructor
    · simp [completedBranch, hurl, jsTruthy, hu, hf, resultImageMime]
      decide
    · simp [completedBranch, hurl, jsTruthy, hu, hf, storedMime, Store.set]
      decide
  · intro h hct hh
    subst hct
    constructor
    · simp [completedBranch, hurl, jsTruthy, hu, hf, hh, resultImageMime]
    · simp [completedBranch, hurl, jsTruthy, hu, hf, hh, storedMime,
        Store.set]

/-- An environment whose provider completes on the first poll and serves
the file with an empty `content-type` header value. -/
def emptyHeaderEnv : NapkinEnv :=
  { create := .ok (some "j1") none
  , polls := fun _ =>
      .ok ⟨some "completed", some [⟨some "https://x/f"⟩], none, none⟩
  , fetchFile := fun _ => .ok (some "") [1, 2]
  , freshImageId := "img00001"
  , now := 5
  , baseUrl := "" }

/-- C9 (counterexample): with a present but empty `content-type` header
the code falls back to `image/png` (JavaScript `||` treats the empty
string as falsy), whereas the claim predicts the header value with
parameters stripped, i.e. the empty string. -/
theorem c9_counterexample_empty_header :
    resultImageMime (generateNapkinVisual emptyHeaderEnv sampleGenArgs
        Store.empty).1 = some "image/png" ∧
    storedMime (generateNapkinVisual emptyHeaderEnv sampleGenArgs
        Store.empty).2 "img00001" = some "image/png" ∧
    "image/png" ≠ splitHead "" ';' := by
  refine ⟨rfl, rfl, by decide⟩

/-- An environment whose provider completes on the first poll and serves
the file with a parameterised `content-type` header. -/
def paramHeaderEnv : NapkinEnv :=
  { create := .ok (some "j1") none
  , polls := fun _ =>
      .ok ⟨some "completed", some [⟨some "https://x/f"⟩], none, none⟩
  , fetchFile := fun _ => .ok (some "text/html;charset=utf-8") [7]
  , freshImageId := "img00001"
  , now := 5
  , baseUrl := "" }

/-- C9 witness: the amended statement evaluated against a download whose
`content-type` is `text/html;charset=utf-8` (stored and returned mime
type `text/html`) and against one whose `content-type` header is present
but empty (stored and returned mime type `image/png`). -/
theorem c9_witness :
    resultImageMime (generateNapkinVisual paramHeaderEnv sampleGenArgs
        Store.empty).1 = some "text/html" ∧
    storedMime (generateNapkinVisual paramHeaderEnv sampleGenArgs
        Store.empty).2 "img00001" = some "text/html" ∧
    resultImageMime (generateNapkinVisual emptyHeaderEnv sampleGenArgs
        Store.empty).1 = some "image/png" ∧
    storedMime (generateNapkinVisual emptyHeaderEnv sampleGenArgs
        Store.empty).2 "img00001" = some "image/png" := by
  have h := (c9_mime_type_amended paramHeaderEnv sampleGenArgs Store.empty
      (some "j1") none
      ⟨some "completed", some [⟨some "https://x/f"⟩], none, none⟩
      "https://x/f" (some "text/html;charset=utf-8") [7]
      rfl rfl rfl rfl rfl (by decide) rfl).2.2
      "text/html;charset=utf-8" rfl (by decide)
  have he := (c9_mime_type_amended emptyHeaderEnv sampleGenArgs Store.empty
      (some "j1") none
      ⟨some "completed", some [⟨some "https://x/f"⟩], none, none⟩
      "https://x/f" (some "") [1, 2]
      rfl rfl rfl rfl rfl (by decide) rfl).2.1 rfl
  exact ⟨h.1.trans (by decide), h.2.trans (by decide), he.1, he.2⟩

end NapkinBridge
